import Mathlib

/-!
Shallow embedding of the polybot activity monitor (src/main.py, the
multi-wallet variant, and src/get_specific_activity.py, the tag-filtered
variant) together with proofs about its change-detection cycle.

The HTTP clients, JSON decoding, console output and sleeping are external
collaborators; they are embedded as explicit inputs (fetch outcomes, send
oracles, the wall-clock sample).  Every function below is a direct
translation of the cited Python lines; comments point at the lines.
-/

namespace Polybot

/-- A timestamp value as it arrives inside a decoded activity record:
the feed delivers unix seconds either as a JSON number or as a string. -/
inductive TSVal where
  | int (n : Int)
  | str (s : String)
deriving DecidableEq, Repr

/-- The slice of a decoded activity record that the monitor loops inspect.
`timestamp = none` models a record whose `timestamp` key is absent
(`activity.get('timestamp')` returns `None`).  `conditionId` is the field
the tag-filtered variant filters on.  `uid` stands for the remaining
payload fields (id, title, outcome, side, size, price, ...), which the
detection logic never branches on; it keeps distinct records distinct. -/
structure Activity where
  timestamp : Option TSVal
  conditionId : Option String
  uid : Nat
deriving DecidableEq, Repr

/-- Python truthiness of the fetched timestamp value, as tested by
`if activity_timestamp:` (src/main.py line 210, src/get_specific_activity.py
line 163): `None`, the integer `0` and the empty string are falsy. -/
def truthyTS : Option TSVal → Bool
  | none => false
  | some (.int n) => n != 0
  | some (.str s) => s != ""

/-- Whitespace as stripped by Python `int()` around a numeric string. -/
def isPySpace (c : Char) : Bool :=
  c = ' ' || c = '\t' || c = '\n' || c = '\r'

/-- Decimal digit test on a character. -/
def isDigitChar (c : Char) : Bool :=
  48 ≤ c.toNat && c.toNat ≤ 57

/-- Accumulate a run of decimal digits; any non-digit character means the
whole string is rejected (`ValueError`). -/
def pyNatOfDigits : List Char → Nat → Option Nat
  | [], acc => some acc
  | c :: cs, acc =>
    if isDigitChar c then pyNatOfDigits cs (acc * 10 + (c.toNat - 48))
    else none

/-- Python `int()` applied to a string: surrounding whitespace is stripped,
an optional single sign precedes one or more decimal digits, anything else
raises `ValueError` (modelled as `none`).  Digit-group underscores, which
Python also accepts, never occur in feed timestamps and are not modelled. -/
def pyIntOfString (s : String) : Option Int :=
  match ((s.data.dropWhile isPySpace).reverse.dropWhile isPySpace).reverse with
  | [] => none
  | ['+'] => none
  | ['-'] => none
  | '+' :: cs => (pyNatOfDigits cs 0).map Int.ofNat
  | '-' :: cs => (pyNatOfDigits cs 0).map (fun n => -(n : Int))
  | cs => (pyNatOfDigits cs 0).map Int.ofNat

/-- The timestamp coercion both variants perform (src/main.py lines 213-214,
src/get_specific_activity.py lines 166-167): a string goes through `int()`,
a non-string is used as-is (in this value space it is already an integer). -/
def coerceTS : TSVal → Option Int
  | .int n => some n
  | .str s => pyIntOfString s

/-- The integer timestamp of a record, when the field is present and
coercible. -/
def tsInt (a : Activity) : Option Int :=
  a.timestamp.bind coerceTS

/-- Per-record classification of src/main.py lines 208-222: keep a record
when its fetched timestamp is truthy, coerces to an integer, and that
integer DIFFERS from the watermark (line 217 tests `!=`, not `>`; the dead
assignment on line 218 has no observable effect).  A failing coercion
raises `ValueError`, which lines 220-222 catch and turn into a drop, so
the classification is a total Boolean. -/
def keepMain (lastCheck : Int) (a : Activity) : Bool :=
  match a.timestamp with
  | none => false
  | some v =>
    if truthyTS (some v) then
      match coerceTS v with
      | some t => t != lastCheck
      | none => false
    else false

/-- The `new_activities` list built by src/main.py lines 207-222: the
fetched records that pass `keepMain`, in feed order (loop with conditional
append). -/
def newActivitiesMain (lastCheck : Int) (acts : List Activity) : List Activity :=
  acts.filter (keepMain lastCheck)

/-- Per-record classification of src/get_specific_activity.py lines
161-174: identical to the multi-wallet variant except that line 170 tests
strict `>` against the watermark. -/
def keepGsa (lastCheck : Int) (a : Activity) : Bool :=
  match a.timestamp with
  | none => false
  | some v =>
    if truthyTS (some v) then
      match coerceTS v with
      | some t => t > lastCheck
      | none => false
    else false

/-- The `new_activities` list built by src/get_specific_activity.py lines
160-174. -/
def newActivitiesGsa (lastCheck : Int) (acts : List Activity) : List Activity :=
  acts.filter (keepGsa lastCheck)

/-- One step of the `latest_activity_timestamp` scan of src/main.py lines
244-252: when the record has a `timestamp` key, re-coerce it with `int()`
and take it when it exceeds the running latest.  For every record of
`new_activities` the coercion already succeeded inside the filter, so the
`none` branch (where Python's `int()` would raise) is unreachable on the
inputs this is applied to. -/
def latestStep (latest : Int) (a : Activity) : Int :=
  match tsInt a with
  | some t => if t > latest then t else latest
  | none => latest

/-- The watermark committed by one cycle of src/main.py: when
`new_activities` is nonempty, `latest_activity_timestamp` starts at the
previous watermark (line 228), is raised over the new records (lines
244-252) and is committed (line 274); otherwise — including when the fetch
returned nothing — `last_check_timestamp` is left unchanged. -/
def nextWatermarkMain (lastCheck : Int) (acts : List Activity) : Int :=
  if (newActivitiesMain lastCheck acts).isEmpty then lastCheck
  else (newActivitiesMain lastCheck acts).foldl latestStep lastCheck

/-- The watermark committed by one cycle of src/get_specific_activity.py
line 228: `last_check_timestamp = current_timestamp`, unconditionally,
where `current_timestamp = int(time.time())` was sampled at the cycle
start (line 151).  The previous watermark and the fetched records are
ignored. -/
def nextWatermarkGsa (_lastCheck : Int) (_acts : List Activity)
    (currentTimestamp : Int) : Int :=
  currentTimestamp

/-- The per-record notification pass of src/main.py lines 230-270 with the
Telegram credentials configured: each record of `new_activities`, in
order, gets exactly one `send_telegram_message` call; the Boolean outcome
(lines 158-169 catch `RequestException` and return `False`) is ignored by
the loop, which continues either way.  The external relay is the oracle
`send`. -/
def runNotifyMain (send : Activity → Bool) (newActs : List Activity) :
    List (Activity × Bool) :=
  newActs.map (fun a => (a, send a))

/-- One full detection-and-notification cycle of src/main.py lines
204-274: the attempted deliveries with their outcomes, and the watermark
committed afterwards (line 274 runs after the notification loop and does
not consult the delivery outcomes). -/
def cycleMain (lastCheck : Int) (acts : List Activity) (send : Activity → Bool) :
    List (Activity × Bool) × Int :=
  (runNotifyMain send (newActivitiesMain lastCheck acts),
    nextWatermarkMain lastCheck acts)

/-- Outcome of one HTTP GET against the activity feed: a decoded body, or
a `requests.exceptions.RequestException` (connection, HTTP-status or
response-parse failure). -/
inductive FetchOutcome where
  | ok (body : List Activity)
  | requestError

/-- src/main.py lines 108-135 `get_user_activity`: on success return the
decoded body, on `RequestException` (lines 133-135) log and return the
empty list — the exception never leaves the function. -/
def get_user_activity (_wallet_address : String) : FetchOutcome → List Activity
  | .ok body => body
  | .requestError => []

/-- src/get_specific_activity.py lines 60-92 `get_user_activity`: same
error handling; on success, when a non-empty condition-id list is supplied
(`if market_condition_ids:` is Python-truthy), keep only records whose
`conditionId` is a member. -/
def get_user_activity_gsa (_wallet_address : String)
    (market_condition_ids : Option (List String)) : FetchOutcome → List Activity
  | .ok body =>
    match market_condition_ids with
    | none => body
    | some ids =>
      if ids.isEmpty then body
      else body.filter (fun a =>
        match a.conditionId with
        | some c => ids.contains c
        | none => false)
  | .requestError => []

/-- The Python `NameError` (concretely `UnboundLocalError`) raised when a
function-local name is read before any assignment to it has run. -/
inductive PyNameError where
  | nameError
deriving DecidableEq, Repr

/-- The reporting path of one src/main.py monitor cycle with respect to
the loop-local name `activity_name`, which is assigned ONLY at line 232,
inside the `for activity in new_activities` loop.  `activityNameBound`
says whether a previous iteration of the `while True` loop has already
bound it.  When the fetch result is empty, line 279 evaluates an
f-string that interpolates `activity_name`; when it is nonempty but no
record is classified new, line 277 evaluates a similar f-string.  On a cycle before the first new-activity cycle either
evaluation reads the unbound name and raises, and `monitor_user_trades`
has no handler, so the exception escapes the coroutine (modelled as
`.error`).  When some record is new, the notify loop binds the name
(line 232) and the cycle completes (`.ok` carries the binding state for
the next cycle). -/
def cycleMainSurvives (activityNameBound : Bool) (lastCheck : Int)
    (activities : List Activity) : Except PyNameError Bool :=
  if activities.isEmpty then
    if activityNameBound then .ok activityNameBound else .error .nameError
  else if (newActivitiesMain lastCheck activities).isEmpty then
    if activityNameBound then .ok activityNameBound else .error .nameError
  else
    .ok true

/-- The query parameters src/main.py lines 120-125 sends with every
activity fetch. -/
structure ActivityRequest where
  user : String
  limit : Nat
  sortBy : String
  sortDirection : String
deriving DecidableEq, Repr

/-- The request built by src/main.py `get_user_activity` lines 118-128. -/
def activityRequestMain (wallet_address : String) : ActivityRequest :=
  { user := wallet_address, limit := 1, sortBy := "TIMESTAMP",
    sortDirection := "DESC" }

/-- A market object as decoded from the market-listing endpoint (the two
fields src/get_specific_activity.py lines 42-46 read). -/
structure RawMarket where
  question : Option String
  conditionId : Option String
deriving DecidableEq, Repr

/-- One entry of the combined list get_markets_by_tags builds (lines 42-46
of src/get_specific_activity.py, lines 90-94 of src/main.py). -/
structure TagMarket where
  question : Option String
  condition_id : Option String
  tag_id : String
deriving DecidableEq, Repr

/-- Extraction of one market for one tag (lines 42-46). -/
def marketEntry (tag_id : String) (m : RawMarket) : TagMarket :=
  { question := m.question, condition_id := m.conditionId, tag_id := tag_id }

/-- src/get_specific_activity.py lines 12-57 (identically src/main.py
lines 60-105) `get_markets_by_tags`: one GET per tag id, in order; on
success the extracted markets are appended to the accumulator; a
`RequestException` (which in this client also covers a failing response
parse) is caught by lines 53-55 and the loop continues with the next tag.
The external endpoint is the oracle `fetch` (`none` = the request or its
parse failed).  The second component records the tags actually requested,
one GET per loop iteration on either branch.  `tagStep` is one iteration
of the `for tag_id in tag_ids` loop. -/
def tagStep (fetch : String → Option (List RawMarket))
    (acc : List TagMarket × List String) (tag_id : String) :
    List TagMarket × List String :=
  match fetch tag_id with
  | some markets => (acc.1 ++ markets.map (marketEntry tag_id), acc.2 ++ [tag_id])
  | none => (acc.1, acc.2 ++ [tag_id])

/-- The whole loop of lines 23-57: fold `tagStep` over the tag list,
starting from the empty accumulator. -/
def get_markets_by_tags (fetch : String → Option (List RawMarket))
    (tag_ids : List String) : List TagMarket × List String :=
  tag_ids.foldl (tagStep fetch) ([], [])

/-- The contribution of a single tag to the combined list: its extracted
markets on success, zero markets when its request or parse failed. -/
def marketsForTag (fetch : String → Option (List RawMarket)) (tag_id : String) :
    List TagMarket :=
  match fetch tag_id with
  | some markets => markets.map (marketEntry tag_id)
  | none => []

/-- The per-wallet watermark state of the multi-wallet variant: src/main.py
lines 308-323 start one `monitor_user_trades` task per wallet, and each
task's `last_check_timestamp` (lines 192-194) is a coroutine-local
variable.  A system state maps each wallet address to its task's
watermark; one detection cycle of one task rewrites only that wallet's
entry, through the cycle's own watermark function. -/
def stepWallet (watermarks : String → Int) (wallet_address : String)
    (acts : List Activity) : String → Int :=
  fun w =>
    if w = wallet_address then nextWatermarkMain (watermarks wallet_address) acts
    else watermarks w

/-!
### Helper lemmas
-/

/-- A record kept by the multi-wallet classifier has a present, truthy,
coercible timestamp whose integer value differs from the watermark. -/
theorem keepMain_spec {W : Int} {a : Activity} (h : keepMain W a = true) :
    ∃ v t, a.timestamp = some v ∧ truthyTS (some v) = true ∧
      coerceTS v = some t ∧ t ≠ W := by
  cases hts : a.timestamp with
  | none => simp [keepMain, hts] at h
  | some v =>
    cases hc : coerceTS v with
    | none =>
      by_cases htr : truthyTS (some v) = true
      · simp [keepMain, hts, hc, htr] at h
      · simp [keepMain, hts, htr] at h
    | some t =>
      by_cases htr : truthyTS (some v) = true
      · refine ⟨v, t, rfl, htr, hc, ?_⟩
        simp [keepMain, hts, hc, htr, bne_iff_ne] at h
        exact h
      · simp [keepMain, hts, htr] at h

/-- A record kept by the tag-filtered classifier has a present, truthy,
coercible timestamp whose integer value exceeds the watermark. -/
theorem keepGsa_spec {W : Int} {a : Activity} (h : keepGsa W a = true) :
    ∃ v t, a.timestamp = some v ∧ truthyTS (some v) = true ∧
      coerceTS v = some t ∧ W < t := by
  cases hts : a.timestamp with
  | none => simp [keepGsa, hts] at h
  | some v =>
    cases hc : coerceTS v with
    | none =>
      by_cases htr : truthyTS (some v) = true
      · simp [keepGsa, hts, hc, htr] at h
      · simp [keepGsa, hts, htr] at h
    | some t =>
      by_cases htr : truthyTS (some v) = true
      · refine ⟨v, t, rfl, htr, hc, ?_⟩
        simp [keepGsa, hts, hc, htr] at h
        exact h
      · simp [keepGsa, hts, htr] at h

/-- The latest-timestamp scan never lowers the running value. -/
theorem le_latestStep (acc : Int) (a : Activity) : acc ≤ latestStep acc a := by
  unfold latestStep
  cases tsInt a with
  | none => exact le_refl acc
  | some t => dsimp only; split <;> omega

/-- Folding the latest-timestamp scan never lowers the starting value. -/
theorem le_foldl_latestStep (l : List Activity) :
    ∀ acc : Int, acc ≤ l.foldl latestStep acc := by
  induction l with
  | nil => intro acc; exact le_refl acc
  | cons a l ih =>
    intro acc
    rw [List.foldl_cons]
    exact le_trans (le_latestStep acc a) (ih _)

/-- A single scan step is at least the record's own coerced timestamp. -/
theorem tsInt_le_latestStep {a : Activity} {t : Int} (ht : tsInt a = some t)
    (acc : Int) : t ≤ latestStep acc a := by
  unfold latestStep
  rw [ht]
  dsimp only
  split <;> omega

/-- The folded scan dominates the coerced timestamp of every list member. -/
theorem tsInt_le_foldl_latestStep {a : Activity} {t : Int} (ht : tsInt a = some t) :
    ∀ l : List Activity, a ∈ l → ∀ acc : Int, t ≤ l.foldl latestStep acc := by
  intro l
  induction l with
  | nil => intro hmem; cases hmem
  | cons b l ih =>
    intro hmem acc
    rw [List.foldl_cons]
    rcases List.mem_cons.mp hmem with hab | hmem2
    · subst hab
      exact le_trans (tsInt_le_latestStep ht acc) (le_foldl_latestStep l _)
    · exact ih hmem2 _

/-- The watermark of a multi-wallet cycle never regresses. -/
theorem le_nextWatermarkMain (W : Int) (acts : List Activity) :
    W ≤ nextWatermarkMain W acts := by
  unfold nextWatermarkMain
  split
  · exact le_refl W
  · exact le_foldl_latestStep _ W

/-- With no new records the multi-wallet cycle leaves the watermark
unchanged. -/
theorem nextWatermarkMain_of_no_new {W : Int} {acts : List Activity}
    (h : newActivitiesMain W acts = []) : nextWatermarkMain W acts = W := by
  unfold nextWatermarkMain
  rw [h]
  rfl

/-- The committed multi-wallet watermark covers every new record. -/
theorem mem_new_le_nextWatermarkMain {W : Int} {acts : List Activity} {a : Activity}
    (hmem : a ∈ newActivitiesMain W acts) {t : Int} (ht : tsInt a = some t) :
    t ≤ nextWatermarkMain W acts := by
  unfold nextWatermarkMain
  split
  · next hemp =>
    rw [List.isEmpty_iff] at hemp
    rw [hemp] at hmem
    cases hmem
  · exact tsInt_le_foldl_latestStep ht _ hmem W

/-- The notification pass attempts exactly the new records, in order. -/
theorem runNotifyMain_fst (send : Activity → Bool) :
    ∀ l : List Activity, (runNotifyMain send l).map Prod.fst = l
  | [] => rfl
  | a :: l => by
    have ih := runNotifyMain_fst send l
    unfold runNotifyMain at ih ⊢
    rw [List.map_cons, List.map_cons, ih]

/-- Unrolling the tag-resolution loop: the accumulated markets are the
concatenation of per-tag contributions and every tag is requested once. -/
theorem foldl_tagStep_eq (fetch : String → Option (List RawMarket)) :
    ∀ (l : List String) (acc : List TagMarket × List String),
      l.foldl (tagStep fetch) acc
        = (acc.1 ++ l.flatMap (marketsForTag fetch), acc.2 ++ l) := by
  intro l
  induction l with
  | nil => intro acc; simp
  | cons t l ih =>
    intro acc
    rw [List.foldl_cons, ih]
    cases h : fetch t <;>
      simp [tagStep, marketsForTag, h, List.flatMap_cons, List.append_assoc]

/-!
### Claim theorems
-/

/-- C1: the claim requires a record to be new exactly when its timestamp
is coercible and STRICTLY GREATER than the watermark.  src/main.py line
217 instead tests `!=`, contradicting its own comment on line 216 ("Only
include activities newer than our last check"; line 218 is a dead
assignment left over from a botched edit): with watermark 100, a record
with timestamp 90 is classified as new by the multi-wallet variant even
though 90 < 100, while the tag-filtered variant's strict test
(src/get_specific_activity.py line 170) rejects it as the claim says. -/
theorem C1_main_classifies_older_record_as_new :
    newActivitiesMain 100 [⟨some (.int 90), none, 0⟩] = [⟨some (.int 90), none, 0⟩] ∧
      newActivitiesGsa 100 [⟨some (.int 90), none, 0⟩] = [] := by
  decide

/-- C2 counterexample: in src/get_specific_activity.py the watermark
committed at the end of a cycle is the wall-clock sample taken at the
cycle start (line 228, line 151), whatever was fetched: with previous
watermark 100, no fetched records (hence no new records) and wall clock
200, the committed watermark is 200, not 100 as the claim requires. -/
theorem C2_gsa_commits_wall_clock :
    newActivitiesGsa 100 [] = [] ∧ nextWatermarkGsa 100 [] 200 = 200 ∧
      (200 : Int) ≠ 100 := by
  decide

/-- C2 amended: in the multi-wallet variant (src/main.py) the claim holds —
the watermark produced by one detection cycle never regresses and equals
the previous watermark exactly when no record is classified new; the
tag-filtered variant (src/get_specific_activity.py) instead commits the
cycle's wall-clock start time, whatever the previous watermark and the
fetched records were. -/
theorem C2_watermark_monotone_main (W : Int) (acts : List Activity) :
    W ≤ nextWatermarkMain W acts ∧
      (newActivitiesMain W acts = [] → nextWatermarkMain W acts = W) ∧
      ∀ currentTimestamp : Int,
        nextWatermarkGsa W acts currentTimestamp = currentTimestamp :=
  ⟨le_nextWatermarkMain W acts, fun h => nextWatermarkMain_of_no_new h,
    fun _ => rfl⟩

/-- Witness for C2_watermark_monotone_main: watermark 100 and a single
record at exactly timestamp 100 — no record is classified new, and the
committed watermark is exactly 100. -/
theorem C2_watermark_monotone_main_witness :
    newActivitiesMain 100 [⟨some (.int 100), none, 0⟩] = [] ∧
      nextWatermarkMain 100 [⟨some (.int 100), none, 0⟩] = 100 ∧
      100 ≤ nextWatermarkMain 100 [⟨some (.int 100), none, 0⟩] :=
  ⟨by decide,
    (C2_watermark_monotone_main 100 [⟨some (.int 100), none, 0⟩]).2.1 (by decide),
    (C2_watermark_monotone_main 100 [⟨some (.int 100), none, 0⟩]).1⟩

/-- C3: the spec scenario W=100, R=[ts 90, ts 150, ts 100].  The
multi-wallet variant (src/main.py) classifies BOTH the ts-90 and the
ts-150 records as new — its line-217 `!=` slip admits the older record —
though it does commit watermark 150; the claim says exactly the ts-150
record.  The tag-filtered variant classifies exactly the ts-150 record,
as claimed (its committed watermark, however, is the wall-clock sample;
see C2_gsa_commits_wall_clock). -/
theorem C3_scenario_on_the_code :
    newActivitiesMain 100
        [⟨some (.int 90), none, 0⟩, ⟨some (.int 150), none, 1⟩, ⟨some (.int 100), none, 2⟩]
      = [⟨some (.int 90), none, 0⟩, ⟨some (.int 150), none, 1⟩] ∧
    nextWatermarkMain 100
        [⟨some (.int 90), none, 0⟩, ⟨some (.int 150), none, 1⟩, ⟨some (.int 100), none, 2⟩]
      = 150 ∧
    newActivitiesGsa 100
        [⟨some (.int 90), none, 0⟩, ⟨some (.int 150), none, 1⟩, ⟨some (.int 100), none, 2⟩]
      = [⟨some (.int 150), none, 1⟩] := by
  decide

/-- C4: a record whose timestamp is missing or not coercible to an
integer is dropped by both variants: it never appears among the new
records and is never handed to the notifier.  "Never raises" is reflected
in the embedding itself: the classification is a total Boolean because
the `except (ValueError, TypeError)` handlers (src/main.py lines 220-222,
src/get_specific_activity.py lines 172-174) turn a failing coercion into
a drop. -/
theorem C4_malformed_record_dropped (W : Int) (acts : List Activity)
    (a : Activity) (send : Activity → Bool) (hmal : tsInt a = none) :
    a ∉ newActivitiesMain W acts ∧ a ∉ newActivitiesGsa W acts ∧
      a ∉ (runNotifyMain send (newActivitiesMain W acts)).map Prod.fst := by
  have hmain : a ∉ newActivitiesMain W acts := by
    intro hmem
    obtain ⟨v, t, hts, -, hc, -⟩ := keepMain_spec (List.mem_filter.mp hmem).2
    have : tsInt a = some t := by rw [tsInt, hts]; exact hc
    rw [this] at hmal
    cases hmal
  refine ⟨hmain, ?_, ?_⟩
  · intro hmem
    obtain ⟨v, t, hts, -, hc, -⟩ := keepGsa_spec (List.mem_filter.mp hmem).2
    have : tsInt a = some t := by rw [tsInt, hts]; exact hc
    rw [this] at hmal
    cases hmal
  · rw [runNotifyMain_fst]
    exact hmain

/-- Witness for C4_malformed_record_dropped: a record whose timestamp is
the non-numeric string "oops" is dropped by both variants even at
watermark 0. -/
theorem C4_malformed_record_dropped_witness :
    tsInt ⟨some (.str "oops"), none, 7⟩ = none ∧
      ((⟨some (.str "oops"), none, 7⟩ : Activity)
          ∉ newActivitiesMain 0 [⟨some (.str "oops"), none, 7⟩] ∧
        (⟨some (.str "oops"), none, 7⟩ : Activity)
          ∉ newActivitiesGsa 0 [⟨some (.str "oops"), none, 7⟩] ∧
        (⟨some (.str "oops"), none, 7⟩ : Activity)
          ∉ (runNotifyMain (fun _ => true)
              (newActivitiesMain 0 [⟨some (.str "oops"), none, 7⟩])).map Prod.fst) :=
  ⟨by decide,
    C4_malformed_record_dropped 0 [⟨some (.str "oops"), none, 7⟩]
      ⟨some (.str "oops"), none, 7⟩ (fun _ => true) (by decide)⟩

/-- C5: the fetchers themselves behave as claimed — on a
`RequestException` both variants of `get_user_activity` return the empty
list without raising (src/main.py lines 133-135,
src/get_specific_activity.py lines 90-92).  But the claim's conclusion
"a single failed poll cannot terminate the loop" is FALSE of src/main.py:
on a cycle before the first new-activity cycle, a failed poll makes the
fetch return `[]`, control reaches line 279, and its f-string reads the
loop-local `activity_name`, which only line 232 (inside the
new-activities loop) ever assigns — the resulting `NameError`
(`UnboundLocalError`) is uncaught in `monitor_user_trades` and kills the
monitor task.  The first two conjuncts evaluate the fetchers at the
failing input; the third evaluates the cycle's reporting path there with
`activity_name` unbound (first cycle) and shows the uncaught exception;
the fourth shows the crash is precisely the unbound-name slip: with the
name already bound the same cycle survives. -/
theorem C5_failed_first_poll_kills_main_loop :
    get_user_activity "0x37e4728b3c4607fb2b3b205386bb1d1fb1a8c991" .requestError = [] ∧
      get_user_activity_gsa "0x37e4728b3c4607fb2b3b205386bb1d1fb1a8c991" none
        .requestError = [] ∧
      cycleMainSurvives false 0
        (get_user_activity "0x37e4728b3c4607fb2b3b205386bb1d1fb1a8c991" .requestError)
        = .error .nameError ∧
      cycleMainSurvives true 0
        (get_user_activity "0x37e4728b3c4607fb2b3b205386bb1d1fb1a8c991" .requestError)
        = .ok true := by
  refine ⟨rfl, rfl, rfl, rfl⟩

/-- C6: over one multi-wallet cycle with an arbitrary per-record delivery
outcome `send`: every new record is attempted exactly once, in order,
whatever the outcomes (so one failed delivery skips nothing and nothing
is retried); the committed watermark does not depend on the outcomes and
covers the coerced timestamp of every new record, delivered or not. -/
theorem C6_delivery_failure_isolated (W : Int) (acts : List Activity)
    (send : Activity → Bool) :
    (cycleMain W acts send).1.map Prod.fst = newActivitiesMain W acts ∧
      (cycleMain W acts send).2 = nextWatermarkMain W acts ∧
      ∀ a ∈ newActivitiesMain W acts, ∀ t : Int, tsInt a = some t →
        t ≤ (cycleMain W acts send).2 := by
  refine ⟨runNotifyMain_fst send _, rfl, ?_⟩
  intro a hmem t ht
  exact mem_new_le_nextWatermarkMain hmem ht

/-- Witness for C6_delivery_failure_isolated: three new records at
timestamps 10, 20, 30 where delivery fails for the middle one — all three
are attempted and the watermark covers the third. -/
theorem C6_delivery_failure_isolated_witness :
    (cycleMain 0
        [⟨some (.int 10), none, 0⟩, ⟨some (.int 20), none, 1⟩, ⟨some (.int 30), none, 2⟩]
        (fun a => a.uid != 1)).1.map Prod.fst
      = newActivitiesMain 0
        [⟨some (.int 10), none, 0⟩, ⟨some (.int 20), none, 1⟩, ⟨some (.int 30), none, 2⟩] ∧
    (⟨some (.int 30), none, 2⟩ : Activity) ∈ newActivitiesMain 0
        [⟨some (.int 10), none, 0⟩, ⟨some (.int 20), none, 1⟩, ⟨some (.int 30), none, 2⟩] ∧
    tsInt ⟨some (.int 30), none, 2⟩ = some 30 ∧
    (30 : Int) ≤ (cycleMain 0
        [⟨some (.int 10), none, 0⟩, ⟨some (.int 20), none, 1⟩, ⟨some (.int 30), none, 2⟩]
        (fun a => a.uid != 1)).2 := by
  have h := C6_delivery_failure_isolated 0
    [⟨some (.int 10), none, 0⟩, ⟨some (.int 20), none, 1⟩, ⟨some (.int 30), none, 2⟩]
    (fun a => a.uid != 1)
  exact ⟨h.1, by decide, by decide,
    h.2.2 ⟨some (.int 30), none, 2⟩ (by decide) 30 (by decide)⟩

/-- C7: tag resolution requests each tag exactly once, in order, and its
result is the concatenation of the per-tag contributions; a tag whose
request or parse failed contributes zero markets and the remaining tags
are still processed.  No exception escapes: the embedding is a total
function of the fetch oracle because lines 53-55 catch the
`RequestException` of each iteration and continue. -/
theorem C7_tags_resolution (fetch : String → Option (List RawMarket))
    (tag_ids : List String) :
    (get_markets_by_tags fetch tag_ids).1 = tag_ids.flatMap (marketsForTag fetch) ∧
      (get_markets_by_tags fetch tag_ids).2 = tag_ids ∧
      ∀ t, fetch t = none → marketsForTag fetch t = [] := by
  unfold get_markets_by_tags
  rw [foldl_tagStep_eq fetch tag_ids ([], [])]
  refine ⟨by simp, by simp, ?_⟩
  intro t hfail
  simp [marketsForTag, hfail]

/-- Witness for C7_tags_resolution: tags "82" and "306" where the fetch
for "306" fails — both tags are requested, and "306" contributes zero
markets. -/
theorem C7_tags_resolution_witness :
    ((fun t => if t = "82" then some [(⟨some "q", some "c"⟩ : RawMarket)] else none)
        : String → Option (List RawMarket)) "306" = none ∧
      marketsForTag
        (fun t => if t = "82" then some [(⟨some "q", some "c"⟩ : RawMarket)] else none)
        "306" = [] ∧
      (get_markets_by_tags
        (fun t => if t = "82" then some [(⟨some "q", some "c"⟩ : RawMarket)] else none)
        ["82", "306"]).2 = ["82", "306"] := by
  have h := C7_tags_resolution
    (fun t => if t = "82" then some [(⟨some "q", some "c"⟩ : RawMarket)] else none)
    ["82", "306"]
  exact ⟨by decide, h.2.2 "306" (by decide), h.2.1⟩

/-- C8: each monitor task owns its watermark as a coroutine-local
variable, so one wallet's detection cycle rewrites only that wallet's
entry of the system state: every other wallet's watermark is untouched,
and the advanced wallet gets exactly its own cycle's watermark. -/
theorem C8_wallet_watermarks_independent (watermarks : String → Int)
    (wallet_address other : String) (acts : List Activity)
    (h : other ≠ wallet_address) :
    stepWallet watermarks wallet_address acts other = watermarks other ∧
      stepWallet watermarks wallet_address acts wallet_address
        = nextWatermarkMain (watermarks wallet_address) acts := by
  constructor
  · unfold stepWallet; rw [if_neg h]
  · unfold stepWallet; rw [if_pos rfl]

/-- Witness for C8_wallet_watermarks_independent: the spec scenario —
wallet "A" at watermark 50 and wallet "B" at watermark 200; a cycle of
"A" over a ts-60 record advances "A" to 60 and leaves "B" at 200. -/
theorem C8_wallet_watermarks_independent_witness :
    ("B" : String) ≠ "A" ∧
      stepWallet (fun w => if w = "A" then 50 else 200) "A"
        [⟨some (.int 60), none, 0⟩] "B" = 200 ∧
      stepWallet (fun w => if w = "A" then 50 else 200) "A"
        [⟨some (.int 60), none, 0⟩] "A" = 60 := by
  have h := C8_wallet_watermarks_independent
    (fun w => if w = "A" then 50 else 200) "A" "B"
    [⟨some (.int 60), none, 0⟩] (by decide)
  exact ⟨by decide, h.1.trans (by decide), h.2.trans (by decide)⟩

/-- C9: the multi-wallet activity fetch always requests limit=1 sorted by
timestamp descending (src/main.py lines 120-125), and the classifier
never returns more records than it was given, so a cycle that fetched at
most `limit` records classifies (and hence notifies) at most one new
record. -/
theorem C9_limit_one_record_per_cycle (wallet_address : String) :
    (activityRequestMain wallet_address).limit = 1 ∧
      (activityRequestMain wallet_address).sortBy = "TIMESTAMP" ∧
      (activityRequestMain wallet_address).sortDirection = "DESC" ∧
      ∀ (W : Int) (acts : List Activity),
        acts.length ≤ (activityRequestMain wallet_address).limit →
          (newActivitiesMain W acts).length ≤ 1 := by
  refine ⟨rfl, rfl, rfl, ?_⟩
  intro W acts h
  exact le_trans (List.length_filter_le _ acts) h

/-- Witness for C9_limit_one_record_per_cycle: a one-record fetch yields
at most one new record. -/
theorem C9_limit_one_record_per_cycle_witness :
    ([(⟨some (.int 5), none, 0⟩ : Activity)]).length
        ≤ (activityRequestMain "0xabc").limit ∧
      (newActivitiesMain 0 [⟨some (.int 5), none, 0⟩]).length ≤ 1 :=
  ⟨by decide,
    (C9_limit_one_record_per_cycle "0xabc").2.2.2 0
      [⟨some (.int 5), none, 0⟩] (by decide)⟩

/-- C10: in both variants a record whose timestamp field is absent or the
(falsy) integer 0 is rejected by the truthiness guard
(`if activity_timestamp:`, src/main.py line 210,
src/get_specific_activity.py line 163) before any threshold test runs, so
it is never classified new and never handed to the notifier — even
though, for a nonzero watermark, main.py's bare `!=` test on the value 0
alone would admit it. -/
theorem C10_falsy_timestamp_never_new (W : Int) (acts : List Activity)
    (a : Activity) (send : Activity → Bool)
    (hfalsy : a.timestamp = none ∨ a.timestamp = some (.int 0)) :
    a ∉ newActivitiesMain W acts ∧ a ∉ newActivitiesGsa W acts ∧
      a ∉ (runNotifyMain send (newActivitiesMain W acts)).map Prod.fst := by
  have hmain : a ∉ newActivitiesMain W acts := by
    intro hmem
    obtain ⟨v, t, hts, htr, -, -⟩ := keepMain_spec (List.mem_filter.mp hmem).2
    rcases hfalsy with h0 | h0
    · rw [h0] at hts; cases hts
    · rw [h0] at hts
      injection hts with hv
      rw [← hv] at htr
      exact absurd htr (by decide)
  refine ⟨hmain, ?_, ?_⟩
  · intro hmem
    obtain ⟨v, t, hts, htr, -, -⟩ := keepGsa_spec (List.mem_filter.mp hmem).2
    rcases hfalsy with h0 | h0
    · rw [h0] at hts; cases hts
    · rw [h0] at hts
      injection hts with hv
      rw [← hv] at htr
      exact absurd htr (by decide)
  · rw [runNotifyMain_fst]
    exact hmain

/-- Witness for C10_falsy_timestamp_never_new: a ts-0 record at watermark
100 — the bare `!=` comparison would admit the value 0, yet the record is
not classified new by either variant and is not notified. -/
theorem C10_falsy_timestamp_never_new_witness :
    ((⟨some (.int 0), none, 3⟩ : Activity).timestamp = none ∨
        (⟨some (.int 0), none, 3⟩ : Activity).timestamp = some (.int 0)) ∧
      ((0 : Int) != 100) = true ∧
      ((⟨some (.int 0), none, 3⟩ : Activity)
          ∉ newActivitiesMain 100 [⟨some (.int 0), none, 3⟩] ∧
        (⟨some (.int 0), none, 3⟩ : Activity)
          ∉ newActivitiesGsa 100 [⟨some (.int 0), none, 3⟩] ∧
        (⟨some (.int 0), none, 3⟩ : Activity)
          ∉ (runNotifyMain (fun _ => true)
              (newActivitiesMain 100 [⟨some (.int 0), none, 3⟩])).map Prod.fst) :=
  ⟨by decide, by decide,
    C10_falsy_timestamp_never_new 100 [⟨some (.int 0), none, 3⟩]
      ⟨some (.int 0), none, 3⟩ (fun _ => true) (by decide)⟩

end Polybot
